import Mathlib

/-!
# Verification of `jianshu2dayone` (HTML → text / Markdown batch converters)

Shallow embedding of the two scripts `html2txt.py` and `html2markdown.py`.

The HTML parsing performed by BeautifulSoup is abstracted away: a parsed
document is represented by the data the extraction function actually
consumes — the (optional) text of the first `<h1 class="title">` element and
the (optional) list of direct children of the first `<div class="show-content">`
element.  Everything downstream of the parser (`extract_text_from_html`'s
fragment collection and its rendering loop, the per-file drivers, the exit-code
logic of `main`) is translated statement by statement from the Python source.
-/

namespace Jianshu

/-! ## Python `str.strip()` (used by `get_text(strip=True)` and the final
`output_text.strip()` on line 65 of `html2txt.py`).

Python's `strip()` removes whitespace characters from both ends of a string.
We model it on the character list: drop whitespace from the front, then drop
whitespace from the (reversed) back. -/

/-- `pystripL l` is Python `str.strip()` on the character list `l`: remove
leading and trailing whitespace characters. -/
def pystripL (l : List Char) : List Char :=
  (((l.dropWhile Char.isWhitespace).reverse.dropWhile Char.isWhitespace)).reverse

/-- Python `str.strip()` on strings. -/
def pystrip (s : String) : String :=
  ⟨pystripL s.data⟩

/-! ## The parsed-document data model consumed by `extract_text_from_html` -/

/-- One direct child of the `<div class="show-content">` container, as seen by
the loop on lines 27–43 of `html2txt.py`:
* `textNode s` — a `NavigableString` (raw text between tags);
* `p raw` — a `<p>` element whose `get_text(strip=True)` equals `pystrip raw`;
* `hr` — an `<hr>` element;
* `other` — any other element (ignored by the loop). -/
inductive Child where
  | textNode (s : String)
  | p (raw : String)
  | hr
  | other
deriving DecidableEq

/-- The parts of a parsed HTML document that `extract_text_from_html` reads:
`title` is the raw text of the first `<h1 class="title">` (if any), `content`
the direct children of the first `<div class="show-content">` (if any). -/
structure HtmlDoc where
  title : Option String
  content : Option (List Child)
deriving DecidableEq

/-- The separator string appended for `<hr>` tags (lines 39–40 of
`html2txt.py`). -/
def sep : String := "\n---\n"

/-- One iteration of the `for element in content_div.children` loop
(lines 27–43 of `html2txt.py`), acting on the accumulated `text_parts` list:
* whitespace-only strings are skipped by line 29–30, and other bare text nodes
  fall through every `elif` (a `NavigableString` has `name` `None`), so all
  text nodes leave `text_parts` unchanged;
* a `<p>` contributes its stripped text when non-empty (lines 32–35);
* an `<hr>` contributes `sep` only when `text_parts` is non-empty and its last
  element is not already `sep` (lines 37–40);
* every other element is ignored (lines 41–43). -/
def stepChild (parts : List String) : Child → List String
  | .textNode _ => parts
  | .p raw =>
    let paragraph_text := pystrip raw
    if paragraph_text != "" then parts ++ [paragraph_text] else parts
  | .hr =>
    match parts.getLast? with
    | none => parts
    | some last => if last != sep then parts ++ [sep] else parts
  | .other => parts

/-- The `text_parts` list built by lines 15–43 of `html2txt.py`: the stripped
title text and a `"\n"` when the title element exists (lines 18–22), then the
fold of `stepChild` over the content container's children (lines 25–43). -/
def text_parts (doc : HtmlDoc) : List String :=
  let init : List String :=
    match doc.title with
    | some t => [pystrip t, "\n"]
    | none => []
  match doc.content with
  | none => init
  | some cs => cs.foldl stepChild init

/-- The rendering loop of lines 49–61 of `html2txt.py`, on the remaining part
of `filtered_parts`.  Each step appends the current `part` and then the extra
string chosen by the `if`/`elif` chain on lines 53–61.  The Python code reads
the local variable `title` inside the first branch (line 55); when no title
element was found that variable was never assigned, so reaching line 55 raises
`UnboundLocalError` — modelled by the result `none`. -/
def renderGo (titleVar : Option String) : List String → Option String
  | [] => some ""
  | [part] =>
    if part = sep then some (part ++ "\n")
    else if part = "\n" then some (part ++ "\n")
    else some part
  | part :: next :: rest =>
    if part ≠ sep ∧ next ≠ sep then
      match titleVar with
      | none => none
      | some title =>
        let extra :=
          if ¬ (part = title ∧ next = "\n") then
            if next ≠ "\n" then "\n\n" else ""
          else ""
        (renderGo titleVar (next :: rest)).map (fun r => part ++ extra ++ r)
    else if part = sep then
      (renderGo titleVar (next :: rest)).map (fun r => part ++ "\n" ++ r)
    else if part = "\n" then
      (renderGo titleVar (next :: rest)).map (fun r => part ++ "\n" ++ r)
    else
      (renderGo titleVar (next :: rest)).map (fun r => part ++ r)

/-- `extract_text_from_html` (lines 9–65 of `html2txt.py`): build `text_parts`,
filter out falsy (empty) strings (line 47), run the rendering loop
(lines 49–61), then `strip()` the result and append one `"\n"` (line 65).
`none` models the `UnboundLocalError` raised on line 55 when the `title`
variable was never assigned. -/
def extract_text_from_html (doc : HtmlDoc) : Option String :=
  let titleVar := doc.title.map pystrip
  let filtered_parts := (text_parts doc).filter (fun part => part != "")
  (renderGo titleVar filtered_parts).map (fun output_text => pystrip output_text ++ "\n")

/-! ## Facts about `pystrip` -/

/-- Dropping a prefix twice drops it once. -/
theorem dropWhile_idem (p : Char → Bool) (l : List Char) :
    (l.dropWhile p).dropWhile p = l.dropWhile p := by
  cases h : l.dropWhile p with
  | nil => rfl
  | cons a as =>
    have hnot := List.head?_dropWhile_not p l
    rw [h] at hnot
    simp only [List.head?_cons] at hnot
    rw [List.dropWhile_cons_of_neg (by simp [hnot])]

/-- When `dropWhile` leaves something, the last element survives. -/
theorem getLast?_dropWhile (p : Char → Bool) (l : List Char)
    (h : l.dropWhile p ≠ []) : (l.dropWhile p).getLast? = l.getLast? := by
  obtain ⟨t, ht⟩ := List.dropWhile_suffix (l := l) p
  conv_rhs => rw [← ht]
  rw [List.getLast?_append]
  match hdw : l.dropWhile p with
  | [] => exact absurd hdw h
  | a :: as =>
    rw [List.getLast?_eq_getLast (a :: as) (by simp), Option.or_some]

/-- The first character of a stripped string is never whitespace. -/
theorem pystripL_head (m : List Char) (c : Char) (r : List Char)
    (h : pystripL m = c :: r) : c.isWhitespace = false := by
  unfold pystripL at h
  have hZ : ((m.dropWhile Char.isWhitespace).reverse.dropWhile Char.isWhitespace).reverse.head?
      = some c := by rw [h]; rfl
  rw [List.head?_reverse] at hZ
  have hne : (m.dropWhile Char.isWhitespace).reverse.dropWhile Char.isWhitespace ≠ [] := by
    intro hnil
    rw [hnil] at hZ
    simp at hZ
  rw [getLast?_dropWhile _ _ hne, List.getLast?_reverse] at hZ
  have hnot := List.head?_dropWhile_not Char.isWhitespace m
  rw [hZ] at hnot
  exact hnot

/-- Left-stripping a stripped string changes nothing. -/
theorem pystripL_dropWhile (m : List Char) :
    (pystripL m).dropWhile Char.isWhitespace = pystripL m := by
  cases h : pystripL m with
  | nil => rfl
  | cons c r => rw [List.dropWhile_cons_of_neg (by simp [pystripL_head m c r h])]

/-- Right-stripping a stripped string changes nothing. -/
theorem pystripL_reverse_dropWhile (m : List Char) :
    (pystripL m).reverse.dropWhile Char.isWhitespace = (pystripL m).reverse := by
  unfold pystripL
  rw [List.reverse_reverse]
  exact dropWhile_idem _ _

/-- Stripping is unaffected by appending two newlines to an already stripped
string and strips them away again. -/
theorem pystripL_append_nn (m : List Char) :
    pystripL (pystripL m ++ ['\n', '\n']) = pystripL m := by
  cases h : pystripL m with
  | nil => decide
  | cons c r =>
    have hc : c.isWhitespace = false := pystripL_head m c r h
    conv_lhs => rw [pystripL]
    rw [List.cons_append, List.dropWhile_cons_of_neg (by simp [hc]), ← List.cons_append,
      List.reverse_append]
    show ((('\n' :: '\n' :: []).reverse ++ (c :: r).reverse).dropWhile Char.isWhitespace).reverse
      = c :: r
    rw [List.reverse_cons, List.reverse_cons, List.reverse_nil]
    show ((('\n' :: '\n' :: []) ++ (c :: r).reverse).dropWhile Char.isWhitespace).reverse = c :: r
    rw [List.cons_append, List.dropWhile_cons_of_pos (by decide), List.cons_append,
      List.nil_append, List.dropWhile_cons_of_pos (by decide), ← h,
      pystripL_reverse_dropWhile, h, List.reverse_reverse]

/-- A stripped string is never the separator `"\n---\n"` (it cannot start with
a newline). -/
theorem pystrip_ne_sep (s : String) : pystrip s ≠ sep := by
  intro h
  have hd : pystripL s.data = '\n' :: ['-', '-', '-', '\n'] := congrArg String.data h
  have := pystripL_head s.data _ _ hd
  exact absurd this (by decide)

/-- `strip` removes a `"\n\n"` appended after an already stripped string
(the shape produced by the rendering loop after a lone title). -/
theorem pystrip_stripped_append (t : String) :
    pystrip (pystrip t ++ "" ++ ("\n" ++ "\n")) = pystrip t := by
  apply String.ext
  show pystripL ((pystrip t ++ "" ++ ("\n" ++ "\n")).data) = pystripL t.data
  rw [String.data_append, String.data_append]
  show pystripL (pystripL t.data ++ [] ++ ['\n', '\n']) = pystripL t.data
  rw [List.append_nil]
  exact pystripL_append_nn t.data

/-! ## Invariants of the fragment sequence `text_parts` (claims C2, C10) -/

/-- One loop iteration preserves "no two consecutive separators". -/
theorem chain'_stepChild (parts : List String)
    (h : List.Chain' (fun a b => ¬ (a = sep ∧ b = sep)) parts) (c : Child) :
    List.Chain' (fun a b => ¬ (a = sep ∧ b = sep)) (stepChild parts c) := by
  cases c with
  | textNode s => exact h
  | other => exact h
  | p raw =>
    simp only [stepChild]
    split
    · refine List.chain'_append.mpr ⟨h, List.chain'_singleton _, ?_⟩
      intro x hx y hy
      simp only [List.head?_cons, Option.mem_def, Option.some.injEq] at hy
      intro hxy
      exact pystrip_ne_sep raw (hy ▸ hxy.2)
    · exact h
  | hr =>
    simp only [stepChild]
    split
    · exact h
    · rename_i last hlast
      split
      · rename_i hne
        refine List.chain'_append.mpr ⟨h, List.chain'_singleton _, ?_⟩
        intro x hx y hy
        rw [hlast] at hx
        simp only [Option.mem_def, Option.some.injEq] at hx
        intro hxy
        rw [← hx] at hxy
        simp only [bne_iff_ne, ne_eq] at hne
        exact hne hxy.1
      · exact h

/-- The whole content loop preserves "no two consecutive separators". -/
theorem chain'_foldl_stepChild (cs : List Child) (parts : List String)
    (h : List.Chain' (fun a b => ¬ (a = sep ∧ b = sep)) parts) :
    List.Chain' (fun a b => ¬ (a = sep ∧ b = sep)) (cs.foldl stepChild parts) := by
  induction cs generalizing parts with
  | nil => exact h
  | cons c cs ih => exact ih _ (chain'_stepChild _ h c)

/-- The initial `text_parts` (title plus `"\n"`, or nothing) has no two
consecutive separators. -/
theorem chain'_init (t : String) :
    List.Chain' (fun a b => ¬ (a = sep ∧ b = sep)) [pystrip t, "\n"] := by
  rw [List.chain'_cons]
  refine ⟨fun hx => ?_, List.chain'_singleton _⟩
  have : ("\n" : String) ≠ sep := by decide
  exact this hx.2

/-- C2: for every parsed document, the fragment sequence `text_parts` built by
`extract_text_from_html` never contains two consecutive separator fragments:
adjacent `<hr>` children contribute at most one `"\n---\n"` block. -/
theorem c2_no_two_consecutive_separators (doc : HtmlDoc) :
    List.Chain' (fun a b => ¬ (a = sep ∧ b = sep)) (text_parts doc) := by
  obtain ⟨t, c⟩ := doc
  cases t with
  | none =>
    cases c with
    | none => exact List.chain'_nil
    | some cs => exact chain'_foldl_stepChild cs [] List.chain'_nil
  | some t =>
    cases c with
    | none => exact chain'_init t
    | some cs => exact chain'_foldl_stepChild cs _ (chain'_init t)

/-- One loop iteration preserves "the first fragment is not a separator". -/
theorem headNotSep_stepChild (parts : List String)
    (h : parts.head? ≠ some sep) (c : Child) : (stepChild parts c).head? ≠ some sep := by
  cases c with
  | textNode s => exact h
  | other => exact h
  | p raw =>
    simp only [stepChild]
    split
    · cases parts with
      | nil =>
        simp only [List.nil_append, List.head?_cons, ne_eq, Option.some.injEq]
        exact fun hx => pystrip_ne_sep raw hx
      | cons a l =>
        rw [List.cons_append, List.head?_cons]
        simpa using h
    · exact h
  | hr =>
    simp only [stepChild]
    split
    · exact h
    · rename_i last hlast
      split
      · cases parts with
        | nil => simp at hlast
        | cons a l =>
          rw [List.cons_append, List.head?_cons]
          simpa using h
      · exact h

/-- The whole content loop preserves "the first fragment is not a separator". -/
theorem headNotSep_foldl (cs : List Child) (parts : List String)
    (h : parts.head? ≠ some sep) : (cs.foldl stepChild parts).head? ≠ some sep := by
  induction cs generalizing parts with
  | nil => exact h
  | cons c cs ih => exact ih _ (headNotSep_stepChild _ h c)

/-- C10 fails on the code: the rendered output *can* start with `---`.  For
`<h1 class="title">   </h1><div class="show-content"><hr><p>B</p></div>` the
title strips to `""`, so `text_parts = ["", "\n"]` is already non-empty when
the leading `<hr>` arrives and the separator is appended; the final `strip()`
on line 65 then deletes the leading newlines, leaving the returned string
beginning with the `---` marker. -/
theorem c10_counterexample :
    extract_text_from_html ⟨some "   ", some [.hr, .p "B"]⟩ = some "---\n\nB\n" ∧
      List.IsPrefix "---".data "---\n\nB\n".data := by decide

/-- C10 (amended): the fragment sequence never begins with a separator — an
`<hr>` encountered while `text_parts` is still empty (in particular a leading
`<hr>` in a title-less document) produces no separator at all.  The output
can nevertheless begin with `---`: when a title element's text strips to
empty, its `""` and `"\n"` fragments have already been emitted, so a leading
`<hr>` does append a separator and the final `strip()` exposes the marker at
the start of the returned string. -/
theorem c10_never_starts_with_separator (doc : HtmlDoc) :
    (text_parts doc).head? ≠ some sep ∧
      ∀ rest : List Child,
        text_parts ⟨none, some (Child.hr :: rest)⟩ = text_parts ⟨none, some rest⟩ := by
  refine ⟨?_, fun rest => rfl⟩
  obtain ⟨t, c⟩ := doc
  have hinit : ∀ t : String, ([pystrip t, "\n"] : List String).head? ≠ some sep := by
    intro t
    simp only [List.head?_cons, ne_eq, Option.some.injEq]
    exact pystrip_ne_sep t
  cases t with
  | none =>
    cases c with
    | none => simp [text_parts]
    | some cs => exact headNotSep_foldl cs [] (by simp)
  | some t =>
    cases c with
    | none => exact hinit t
    | some cs => exact headNotSep_foldl cs _ (hinit t)

/-! ## Claim C1: the round-trip example -/

/-- C1 fails on the code: for the document
`<h1 class="title">T</h1><div class="show-content"><p>A</p><hr><p>B</p></div>`
the function does **not** return `"T\nA\n\n---\nB\n"`. -/
theorem c1_counterexample :
    extract_text_from_html ⟨some "T", some [.p "A", .hr, .p "B"]⟩ ≠
      some "T\nA\n\n---\nB\n" := by decide

/-- C1 (amended): on that document the function returns
`"T\n\n\nA\n---\n\nB\n"` — three newlines after the title (the `"\n"` part
plus the unconditional `"\n\n"` added on line 57), the `"\n---\n"` separator
block, one extra newline after it (line 59), then `B` and the final newline. -/
theorem c1_actual_output :
    extract_text_from_html ⟨some "T", some [.p "A", .hr, .p "B"]⟩ =
      some "T\n\n\nA\n---\n\nB\n" := by decide

/-! ## Claim C3: empty paragraphs contribute nothing -/

/-- C3: a `<p>` child whose text strips to the empty string leaves the output
of `extract_text_from_html` unchanged: the document with that child removed
produces the identical result. -/
theorem c3_empty_paragraph_no_effect (t : Option String) (pre post : List Child)
    (raw : String) (h : pystrip raw = "") :
    extract_text_from_html ⟨t, some (pre ++ Child.p raw :: post)⟩ =
      extract_text_from_html ⟨t, some (pre ++ post)⟩ := by
  have hparts : text_parts ⟨t, some (pre ++ Child.p raw :: post)⟩ =
      text_parts ⟨t, some (pre ++ post)⟩ := by
    simp only [text_parts]
    rw [List.foldl_append, List.foldl_append, List.foldl_cons]
    congr 1
    simp [stepChild, h]
  simp only [extract_text_from_html, hparts]

/-- Witness for C3 at a concrete document: removing the paragraph `<p>  </p>`
does not change the output. -/
theorem c3_witness :
    extract_text_from_html ⟨some "T", some ([Child.p "A"] ++ Child.p "  " :: [Child.hr])⟩ =
      extract_text_from_html ⟨some "T", some ([Child.p "A"] ++ [Child.hr])⟩ :=
  c3_empty_paragraph_no_effect (some "T") [Child.p "A"] [Child.hr] "  " (by decide)

/-! ## Claim C4: missing title / missing content container -/

/-- C4: with neither a `<h1 class="title">` nor a `<div class="show-content">`
the function returns exactly `"\n"`; with a title but no content container it
returns the stripped title text followed by exactly one newline. -/
theorem c4_missing_title_or_content :
    extract_text_from_html ⟨none, none⟩ = some "\n" ∧
      ∀ t : String, extract_text_from_html ⟨some t, none⟩ = some (pystrip t ++ "\n") := by
  refine ⟨by decide, fun t => ?_⟩
  by_cases h : pystrip t = ""
  · have hfil : [pystrip t, "\n"].filter (fun part => part != "") = ["\n"] := by
      simp [List.filter_cons, h]
    have : extract_text_from_html ⟨some t, none⟩ = some (pystrip ("\n" ++ "\n") ++ "\n") := by
      simp only [extract_text_from_html, text_parts]
      rw [hfil]
      rfl
    rw [this, h]
    decide
  · have hfil : [pystrip t, "\n"].filter (fun part => part != "") = [pystrip t, "\n"] := by
      simp [List.filter_cons, h]
    have hne : pystrip t ≠ sep := pystrip_ne_sep t
    have hnl : ("\n" : String) ≠ sep := by decide
    have hrg : renderGo (some (pystrip t)) [pystrip t, "\n"] =
        some (pystrip t ++ "" ++ ("\n" ++ "\n")) := by
      simp only [renderGo]
      rw [if_pos ⟨hne, hnl⟩, if_neg (fun hn => hn ⟨trivial, trivial⟩), if_neg hnl,
        if_pos trivial]
      rfl
    have : extract_text_from_html ⟨some t, none⟩ =
        some (pystrip (pystrip t ++ "" ++ ("\n" ++ "\n")) ++ "\n") := by
      simp only [extract_text_from_html, text_parts, Option.map_some']
      rw [hfil, hrg]
      rfl
    rw [this, pystrip_stripped_append]

/-- Witness for C4 at a concrete title: `<h1 class="title">  T </h1>` with no
content container yields `"T\n"`. -/
theorem c4_witness :
    extract_text_from_html ⟨none, none⟩ = some "\n" ∧
      extract_text_from_html ⟨some "  T ", none⟩ = some (pystrip "  T " ++ "\n") :=
  ⟨c4_missing_title_or_content.1, c4_missing_title_or_content.2 "  T "⟩

/-! ## Claim C5: spacing after a separator fragment -/

/-- C5 fails on the code: in the rendered output of the round-trip document
the `---` marker is followed by **two** newline characters before the next
paragraph (the separator fragment `"\n---\n"` ends in a newline and line 59
appends one more), so `"---\nB"` never occurs as a substring while
`"---\n\nB"` does. -/
theorem c5_counterexample :
    extract_text_from_html ⟨some "T", some [.p "A", .hr, .p "B"]⟩ =
        some "T\n\n\nA\n---\n\nB\n" ∧
      ¬ List.IsInfix "---\nB".data "T\n\n\nA\n---\n\nB\n".data ∧
      List.IsInfix "---\n\nB".data "T\n\n\nA\n---\n\nB\n".data := by decide

/-- C5 (amended): after every separator fragment the rendering loop emits
exactly one newline before continuing with the next fragment; since the
separator fragment is the string `"\n---\n"`, the `---` marker itself ends up
followed by a blank line (two newlines) before the next paragraph's text. -/
theorem c5_one_newline_after_separator (titleVar : Option String)
    (next : String) (rest : List String) :
    renderGo titleVar (sep :: next :: rest) =
      (renderGo titleVar (next :: rest)).map (fun r => sep ++ "\n" ++ r) := by
  simp only [renderGo]
  rw [if_neg (fun hcon => hcon.1 rfl), if_pos trivial]

/-! ## The directory drivers (claim C6)

The file systems the drivers walk are modelled as a flattened tree: a list of
`(relative directory, file names)` pairs in walk order, the directory `"."`
standing for the input root (as `os.walk` and `Path.rglob` present them).
All paths below are relative to the input root (for inputs) or the respective
output root (for outputs). -/

/-- `os.path.flatten` of a relative directory and a file name; `os.walk` yields
`"."` for the root, which line 66 of `html2markdown.py` maps to the output
root itself. -/
def joinPath (dir file : String) : String :=
  if dir = "." then file else dir ++ "/" ++ file

/-- Python `str.lower()` (ASCII case folding; file-name extensions are
ASCII). -/
def pyLower (s : String) : String := ⟨s.data.map Char.toLower⟩

/-- Python `str.endswith(suffix)` and the suffix match done by a `*.ext`
glob: `suffix` is a suffix of `s`. -/
def pyEndsWith (s suffix : String) : Bool := suffix.data.isSuffixOf s.data

/-- Prefix test (for the `Path.relative_to` containment check). -/
def pyStartsWith (s pre : String) : Bool := pre.data.isPrefixOf s.data

/-- The selection test on line 73 of `html2markdown.py`:
`file.lower().endswith(('.html', '.htm'))`. -/
def mdSelects (file : String) : Bool :=
  pyEndsWith (pyLower file) ".html" || pyEndsWith (pyLower file) ".htm"

/-- `os.path.splitext(file)[0]` (line 76 of `html2markdown.py`): the name
without its extension.  The extension starts at the final dot — unless every
character before that dot is itself a dot, in which case there is no
extension. -/
def splitextBase (name : String) : String :=
  let r := name.data.reverse
  let afterDot := r.takeWhile (fun c => c != '.')
  if afterDot.length = r.length then name
  else if (r.drop (afterDot.length + 1)).all (fun c => c == '.') then name
  else ⟨name.data.take (name.data.length - (afterDot.length + 1))⟩

/-- A directory of the walked tree: its path relative to the input root and
the file names it contains. -/
abbrev WalkDir := String × List String

/-- The `(input, output)` relative paths of one converted file in
`process_directory_recursive` (lines 75–78 of `html2markdown.py`): same
directory, name with the extension replaced by `.md`. -/
def mdPair (dir file : String) : String × String :=
  (joinPath dir file, joinPath dir (splitextBase file ++ ".md"))

/-- The body of the `for file in files` loop of `process_directory_recursive`
(lines 72–82 of `html2markdown.py`), acting on the accumulated conversions
and the `file_count`. -/
def mdStep (dir : String) (acc : List (String × String) × Nat) (file : String) :
    List (String × String) × Nat :=
  if mdSelects file then (acc.1 ++ [mdPair dir file], acc.2 + 1) else acc

/-- `process_directory_recursive` (lines 52–84 of `html2markdown.py`),
projected to the path level: the conversions performed, in order, and the
final `file_count`. -/
def process_directory_recursive (walk : List WalkDir) : List (String × String) × Nat :=
  walk.foldl (fun acc rd => rd.2.foldl (mdStep rd.1) acc) ([], 0)

/-- The selection performed by `input_path.rglob('*.html')` on line 84 of
`html2txt.py`: only names ending in `.html` match (case-sensitively — `.htm`
and upper-case variants are never enumerated). -/
def txtSelects (file : String) : Bool := pyEndsWith file ".html"

/-- The self-exclusion check of lines 86–91 of `html2txt.py`: a scanned file
is skipped iff `relative_to(output_base_dir)` succeeds, i.e. iff its
directory is the nested `html2txt` output directory or lies below it. -/
def underOutputDir (dir : String) : Bool :=
  dir == "html2txt" || pyStartsWith dir "html2txt/"

/-- `Path.with_suffix('.txt')` (line 104 of `html2txt.py`): remove the last
suffix — the part starting at the final dot, unless that dot is the first or
the last character of the name — and append `".txt"`. -/
def withSuffixTxt (name : String) : String :=
  let r := name.data.reverse
  let afterDot := r.takeWhile (fun c => c != '.')
  let keep :=
    if afterDot.length = r.length then name.data
    else if afterDot.length = 0 then name.data
    else if afterDot.length + 1 = r.length then name.data
    else name.data.take (name.data.length - (afterDot.length + 1))
  String.mk keep ++ ".txt"

/-- The `(input, output)` relative paths of one converted file in
`process_directory` of `html2txt.py` (lines 103–104): the output mirrors the
input's relative path with the suffix replaced by `.txt`. -/
def txtPair (dir file : String) : String × String :=
  (joinPath dir file, joinPath dir (withSuffixTxt file))

/-- The body of the `for html_file in input_path.rglob('*.html')` loop
(lines 84–115 of `html2txt.py`), at the path level: glob-matched files under
the output directory are skipped, the rest are converted. -/
def txtStep (dir : String) (acc : List (String × String)) (file : String) :
    List (String × String) :=
  if txtSelects file then
    if underOutputDir dir then acc else acc ++ [txtPair dir file]
  else acc

/-- `process_directory` of `html2txt.py` (lines 68–117), projected to the
path level: the `(input, output)` relative paths of the files it converts,
in walk order. -/
def process_directory (walk : List WalkDir) : List (String × String) :=
  walk.foldl (fun acc rd => rd.2.foldl (txtStep rd.1) acc) []

/-- The inner Markdown loop accumulates exactly the `mdSelects`-filtered
files, paired through `mdPair`, and counts them. -/
theorem mdStep_foldl (dir : String) (files : List String)
    (acc : List (String × String) × Nat) :
    files.foldl (mdStep dir) acc =
      (acc.1 ++ (files.filter mdSelects).map (mdPair dir),
        acc.2 + (files.filter mdSelects).length) := by
  induction files generalizing acc with
  | nil => simp
  | cons f fs ih =>
    rw [List.foldl_cons]
    by_cases h : mdSelects f
    · rw [List.filter_cons_of_pos h, ih]
      simp [mdStep, h]
      omega
    · rw [List.filter_cons_of_neg (by simp [h]), ih]
      simp [mdStep, h]

/-- The outer Markdown walk accumulates the per-directory conversions and
sums the per-directory counts. -/
theorem md_walk_foldl (walk : List WalkDir) (acc : List (String × String) × Nat) :
    walk.foldl (fun acc rd => rd.2.foldl (mdStep rd.1) acc) acc =
      (acc.1 ++ (walk.map (fun rd => (rd.2.filter mdSelects).map (mdPair rd.1))).flatten,
        acc.2 + (walk.map (fun rd => (rd.2.filter mdSelects).length)).sum) := by
  induction walk generalizing acc with
  | nil => simp
  | cons rd walk ih =>
    rw [List.foldl_cons, mdStep_foldl, ih]
    simp [List.append_assoc]
    omega

/-- The inner text loop accumulates exactly the `txtSelects`-filtered files
of a directory that is not under the output tree, paired through `txtPair`. -/
theorem txtStep_foldl (dir : String) (files : List String)
    (acc : List (String × String)) :
    files.foldl (txtStep dir) acc =
      acc ++ (if underOutputDir dir then []
        else (files.filter txtSelects).map (txtPair dir)) := by
  induction files generalizing acc with
  | nil => simp
  | cons f fs ih =>
    rw [List.foldl_cons]
    by_cases h : txtSelects f
    · rw [List.filter_cons_of_pos h]
      by_cases hu : underOutputDir dir
      · rw [ih]
        simp [txtStep, h, hu]
      · rw [ih]
        simp [txtStep, h, hu]
    · rw [List.filter_cons_of_neg (by simp [h]), ih]
      simp [txtStep, h]

/-- The outer text walk accumulates the per-directory conversions. -/
theorem txt_walk_foldl (walk : List WalkDir) (acc : List (String × String)) :
    walk.foldl (fun acc rd => rd.2.foldl (txtStep rd.1) acc) acc =
      acc ++ (walk.map (fun rd =>
        if underOutputDir rd.1 then []
        else (rd.2.filter txtSelects).map (txtPair rd.1))).flatten := by
  induction walk generalizing acc with
  | nil => simp
  | cons rd walk ih =>
    rw [List.foldl_cons, txtStep_foldl, ih]
    simp [List.append_assoc]

/-- C6 fails on the code: for an input tree holding the single file `a.htm`
the Markdown driver converts it (count 1) but the text driver converts
nothing — `rglob('*.html')` never enumerates `.htm` files. -/
theorem c6_counterexample :
    process_directory [(".", ["a.htm"])] = [] ∧
      (process_directory_recursive [(".", ["a.htm"])]).2 = 1 := by decide

/-- C6 (amended): the Markdown driver converts exactly the files whose
lowercased name ends in `.html` or `.htm`, its `file_count` equals the number
of converted files, and each output path mirrors the input's relative path
with the extension replaced by `.md`; the text driver converts exactly the
files whose name ends in `.html` (case-sensitive; `.htm` files are not
selected) outside its own `html2txt` output directory, each output mirroring
the relative path with the suffix replaced by `.txt`. -/
theorem c6_selection_and_mirroring (walk : List WalkDir) :
    (process_directory_recursive walk).1 =
        (walk.map (fun rd => (rd.2.filter mdSelects).map (mdPair rd.1))).flatten ∧
      (process_directory_recursive walk).2 = (process_directory_recursive walk).1.length ∧
      process_directory walk =
        (walk.map (fun rd =>
          if underOutputDir rd.1 then []
          else (rd.2.filter txtSelects).map (txtPair rd.1))).flatten := by
  have hmd : process_directory_recursive walk =
      ((walk.map (fun rd => (rd.2.filter mdSelects).map (mdPair rd.1))).flatten,
        (walk.map (fun rd => (rd.2.filter mdSelects).length)).sum) := by
    unfold process_directory_recursive
    rw [md_walk_foldl]
    simp
  have htxt : process_directory walk =
      (walk.map (fun rd =>
        if underOutputDir rd.1 then []
        else (rd.2.filter txtSelects).map (txtPair rd.1))).flatten := by
    unfold process_directory
    rw [txt_walk_foldl]
    simp
  refine ⟨by rw [hmd], ?_, htxt⟩
  rw [hmd]
  show (walk.map (fun rd => (rd.2.filter mdSelects).length)).sum = _
  rw [List.length_flatten]
  simp [List.map_map, Function.comp_def, List.length_map]

/-! ## Reading one input file (claim C7) -/

/-- The content of one input file as seen by the readers: `utf8` is `some s`
when its bytes decode as UTF-8 and `none` when decoding raises
`UnicodeDecodeError`; `permissive` is the text read with `errors='ignore'`
(undecodable bytes dropped). -/
structure SrcFileContent where
  utf8 : Option String
  permissive : String
deriving DecidableEq

/-- The read phase of `convert_html_to_markdown` (lines 26–33 of
`html2markdown.py`): try UTF-8 first; on `UnicodeDecodeError` print a warning
and re-read with the permissive fallback.  Returns the text obtained and
whether the warning was emitted. -/
def md_read (f : SrcFileContent) : String × Bool :=
  match f.utf8 with
  | some s => (s, false)
  | none => (f.permissive, true)

/-- The read on lines 96–97 of `html2txt.py`: a plain
`open(html_file, 'r', encoding='utf-8')` with **no** fallback; a decode
failure propagates to the per-file `except` clause on line 114 and the file
is skipped (`none`). -/
def txt_read (f : SrcFileContent) : Option String := f.utf8

/-- C7 fails on the code: on an undecodable file the Markdown driver falls
back to the permissive read (with a warning), but the text driver never
obtains the content — it has no fallback and skips the file. -/
theorem c7_counterexample :
    md_read ⟨none, "x"⟩ = ("x", true) ∧ txt_read ⟨none, "x"⟩ = none := by decide

/-- C7 (amended): on an input whose bytes fail UTF-8 decoding, the Markdown
driver re-reads permissively and emits the warning, while the text driver's
read yields nothing — the `UnicodeDecodeError` is caught by its generic
per-file handler and the file is skipped. -/
theorem c7_fallback_only_in_markdown (f : SrcFileContent) (h : f.utf8 = none) :
    md_read f = (f.permissive, true) ∧ txt_read f = none := by
  simp [md_read, txt_read, h]

/-- Witness for C7 at a concrete undecodable file. -/
theorem c7_witness :
    md_read ⟨none, "abc"⟩ = ("abc", true) ∧ txt_read ⟨none, "abc"⟩ = none :=
  c7_fallback_only_in_markdown ⟨none, "abc"⟩ rfl

/-! ## Per-file error handling in the batch loops (claim C8) -/

/-- Which stream a printed message goes to. -/
inductive OutStream where
  | stdout
  | stderr
deriving DecidableEq

/-- One printed message. -/
structure Msg where
  stream : OutStream
  text : String
deriving DecidableEq

/-- What happens while one file is processed: success, or the exception
raised at some point of the read/convert/write sequence (`e` is the
interpolated exception text). -/
inductive FileOutcome where
  | success
  | decodeFailure
  | notFound
  | ioError (e : String)
  | convError (e : String)
deriving DecidableEq

/-- One file of a batch: its input path (relative), its final name component
(`Path.name`), the output path computed for it, and its processing outcome. -/
structure BatchFile where
  path : String
  name : String
  outPath : String
  outcome : FileOutcome
deriving DecidableEq

/-- `convert_html_to_markdown` (lines 19–49 of `html2markdown.py`), projected
to its observable behaviour: the messages printed and whether the output file
was written.  Every handler prints to `sys.stderr` and includes the input
path; after the decode-failure warning the permissive re-read succeeds and
conversion continues. -/
def md_process_file (f : BatchFile) : List Msg × Bool :=
  match f.outcome with
  | .success => ([], true)
  | .decodeFailure =>
    ([⟨.stderr, "Warning: UTF-8 decoding failed for " ++ f.path ++ ". Trying default encoding."⟩],
      true)
  | .notFound =>
    ([⟨.stderr, "Error: Input file not found during conversion: " ++ f.path⟩], false)
  | .ioError e =>
    ([⟨.stderr, "Error reading/writing file " ++ f.path ++ " or " ++ f.outPath ++ ": " ++ e⟩],
      false)
  | .convError e =>
    ([⟨.stderr, "Error converting file " ++ f.path ++ ": " ++ e⟩], false)

/-- The per-file body of `process_directory` (lines 93–115 of `html2txt.py`):
the `Processing:` line is printed before the `try` block; on success the
`Saved to:` line follows; any exception is caught on line 114 and reported by
a plain `print` (standard output) that interpolates `html_file.name` — the
file name only, not its path. -/
def txt_process_file (f : BatchFile) : List Msg :=
  ⟨.stdout, "  Processing: " ++ f.path⟩ ::
    match f.outcome with
    | .success => [⟨.stdout, "    Saved to: " ++ f.outPath⟩]
    | .decodeFailure => [⟨.stdout, "    Error processing " ++ f.name ++ ": " ++ "UnicodeDecodeError"⟩]
    | .notFound => [⟨.stdout, "    Error processing " ++ f.name ++ ": " ++ "FileNotFoundError"⟩]
    | .ioError e => [⟨.stdout, "    Error processing " ++ f.name ++ ": " ++ e⟩]
    | .convError e => [⟨.stdout, "    Error processing " ++ f.name ++ ": " ++ e⟩]

/-- The Markdown batch loop (lines 72–82 of `html2markdown.py`): every file is
handed to `convert_html_to_markdown`, whose exception handlers never
propagate, so each file is processed regardless of the others' outcomes. -/
def md_batch (fs : List BatchFile) : List (List Msg × Bool) :=
  fs.map md_process_file

/-- The text batch loop (lines 84–115 of `html2txt.py`): the `try`/`except`
around the body never propagates, so each file is processed regardless of the
others' outcomes. -/
def txt_batch (fs : List BatchFile) : List (List Msg) :=
  fs.map txt_process_file

/-- C8 fails on the code: the text driver reports a failing file on standard
output (not the error stream) and its error line contains only the file name,
never the directory part of the path. -/
theorem c8_counterexample :
    txt_process_file ⟨"sub/a.html", "a.html", "html2txt/sub/a.txt", .convError "boom"⟩ =
        [⟨.stdout, "  Processing: sub/a.html"⟩,
          ⟨.stdout, "    Error processing a.html: boom"⟩] ∧
      ∀ m ∈ txt_process_file ⟨"sub/a.html", "a.html", "html2txt/sub/a.txt", .convError "boom"⟩,
        m.stream ≠ OutStream.stderr := by decide

/-- C8 (amended): in both drivers every per-file error is caught at the
per-file boundary and the batch continues — each input file produces its own
processing record.  The Markdown driver prints every message to the error
stream with the full input path embedded; the text driver prints everything,
errors included, to standard output. -/
theorem c8_per_file_boundary (fs : List BatchFile) (f : BatchFile) (m : Msg) :
    (md_batch fs).length = fs.length ∧
      (txt_batch fs).length = fs.length ∧
      (m ∈ (md_process_file f).1 →
        m.stream = OutStream.stderr ∧ List.IsInfix f.path.data m.text.data) ∧
      (m ∈ txt_process_file f → m.stream = OutStream.stdout) := by
  refine ⟨List.length_map _ _, List.length_map _ _, ?_, ?_⟩
  · intro hm
    cases f with
    | mk path name outPath outcome =>
      cases outcome with
      | success => simp [md_process_file] at hm
      | decodeFailure =>
        simp only [md_process_file, List.mem_singleton] at hm
        subst hm
        refine ⟨rfl, "Warning: UTF-8 decoding failed for ".data,
          ". Trying default encoding.".data, ?_⟩
        simp [String.data_append]
      | notFound =>
        simp only [md_process_file, List.mem_singleton] at hm
        subst hm
        refine ⟨rfl, "Error: Input file not found during conversion: ".data, [], ?_⟩
        simp [String.data_append]
      | ioError e =>
        simp only [md_process_file, List.mem_singleton] at hm
        subst hm
        refine ⟨rfl, "Error reading/writing file ".data,
          (" or " ++ outPath ++ ": " ++ e).data, ?_⟩
        simp [String.data_append]
      | convError e =>
        simp only [md_process_file, List.mem_singleton] at hm
        subst hm
        refine ⟨rfl, "Error converting file ".data, (": " ++ e).data, ?_⟩
        simp [String.data_append]
  · intro hm
    cases f with
    | mk path name outPath outcome =>
      cases outcome <;>
        simp only [txt_process_file, List.mem_cons, List.not_mem_nil, or_false] at hm <;>
        rcases hm with hm | hm <;> subst hm <;> rfl

/-- Witness for C8: a concrete batch of one failing and one succeeding file,
with the conjuncts instantiated on the failing file's warning message. -/
theorem c8_witness :
    (md_batch [⟨"a.html", "a.html", "html2markdown/a.md", .decodeFailure⟩,
        ⟨"b.html", "b.html", "html2markdown/b.md", .success⟩]).length = 2 ∧
      (txt_batch [⟨"a.html", "a.html", "html2markdown/a.md", .decodeFailure⟩,
        ⟨"b.html", "b.html", "html2markdown/b.md", .success⟩]).length = 2 ∧
      (⟨OutStream.stderr,
          "Warning: UTF-8 decoding failed for " ++ "a.html" ++ ". Trying default encoding."⟩ ∈
            (md_process_file ⟨"a.html", "a.html", "html2markdown/a.md", .decodeFailure⟩).1 →
        (⟨OutStream.stderr,
          "Warning: UTF-8 decoding failed for " ++ "a.html" ++ ". Trying default encoding."⟩ : Msg).stream
            = OutStream.stderr ∧
          List.IsInfix ("a.html" : String).data
            ("Warning: UTF-8 decoding failed for " ++ "a.html" ++ ". Trying default encoding." : String).data) ∧
      ((⟨OutStream.stderr,
          "Warning: UTF-8 decoding failed for " ++ "a.html" ++ ". Trying default encoding."⟩ : Msg) ∈
          txt_process_file ⟨"a.html", "a.html", "html2markdown/a.md", .decodeFailure⟩ →
        OutStream.stderr = OutStream.stdout) :=
  c8_per_file_boundary
    [⟨"a.html", "a.html", "html2markdown/a.md", .decodeFailure⟩,
      ⟨"b.html", "b.html", "html2markdown/b.md", .success⟩]
    ⟨"a.html", "a.html", "html2markdown/a.md", .decodeFailure⟩
    ⟨OutStream.stderr, "Warning: UTF-8 decoding failed for " ++ "a.html" ++ ". Trying default encoding."⟩

/-! ## Exit codes of the Markdown script (claim C9) -/

/-- What the file system reports about the CLI input path in `main` of
`html2markdown.py`: absent, an existing regular file (with its path string),
an existing directory, or an existing path that is neither (socket, fifo, …,
lines 141–144). -/
inductive PathKind where
  | missing
  | file (path : String)
  | dir
  | other
deriving DecidableEq

/-- The process exit code of `html2markdown.py`: the import guard
(lines 7–11) exits `1` when `html2text` is absent; `main` exits `1` on a
missing input path (lines 100–102), on a single-file input whose lowercased
path does not end in `.html`/`.htm` (lines 127–129), and on an existing path
that is neither file nor directory (lines 141–144); otherwise `main` returns
normally and the process exits `0`. -/
def md_main (html2textAvailable : Bool) (p : PathKind) : Nat :=
  if !html2textAvailable then 1
  else
    match p with
    | .missing => 1
    | .file path => if mdSelects path then 0 else 1
    | .dir => 0
    | .other => 1

/-- C9 fails on the code: the exit code is `1` in one more case than the
claim lists — when the input path exists but is neither a regular file nor a
directory (lines 141–144), e.g. a socket, `main` also exits `1`. -/
theorem c9_counterexample :
    ¬ ∀ (avail : Bool) (p : PathKind),
        md_main avail p = 1 ↔
          (avail = false ∨ p = PathKind.missing ∨
            ∃ s, p = PathKind.file s ∧ mdSelects s = false) := by
  intro hall
  have h := (hall true PathKind.other).mp rfl
  rcases h with h | h | ⟨s, hs, _⟩
  · exact Bool.noConfusion h
  · exact PathKind.noConfusion h
  · exact PathKind.noConfusion hs

/-- C9 (amended): the exit code is `1` exactly when the dependency is
missing, the input path is missing, a single-file input fails the
`.html`/`.htm` test, **or the path exists but is neither file nor
directory**; in every other case it is `0` (and `0`/`1` are the only exit
codes). -/
theorem c9_exit_codes (avail : Bool) (p : PathKind) :
    (md_main avail p = 1 ↔
        (avail = false ∨ p = PathKind.missing ∨
          (∃ s, p = PathKind.file s ∧ mdSelects s = false) ∨ p = PathKind.other)) ∧
      (md_main avail p = 0 ∨ md_main avail p = 1) := by
  cases avail with
  | false => simp [md_main]
  | true =>
    cases p with
    | missing => simp [md_main]
    | dir => simp [md_main]
    | other => simp [md_main]
    | file s =>
      by_cases h : mdSelects s <;>
        simp [md_main, h, PathKind.file.injEq]

end Jianshu
